import Mathlib

/-!
Verification development for the framingbot repository.

This file gives a shallow embedding, in Lean 4, of the control-flow core of
the repository (src/conversation_engine.py, src/framing_agent.py,
src/research_framing_agent.py, src/notion_writer.py together with the
notion-sync route of src/server.py), and proves or refutes the frozen
claims about it.

Modelling conventions:
- Calls to the external completion service (run_skill and the chat
  completion call) are nondeterministic external inputs.  They are modelled
  by oracle structures whose fields map the exact payload the source passes
  to the structured output the source reads back; the surrounding control
  flow is translated statement by statement.
- Python dicts with a fixed key set become Lean structures; dicts with open
  key sets become association lists (List (String × _)) with unique keys
  (json.loads and Python dict literals produce unique keys).
- Skill-result weights are Python floats used only through max and
  comparison; they are modelled as Rat, which has the same order behaviour
  for every float value that actually occurs (no NaN is produced by
  json.loads of a well-formed payload the code accepts).
- Python exceptions that the modelled code can raise are made explicit
  (PyErr); a function that cannot raise is total.
- Python string slicing, strip and rstrip are modelled character-wise
  (pySlice, pyStrip, pyRstrip).  Char.isWhitespace differs from the exact
  Python unicode whitespace set only on exotic codepoints that no claim
  depends on.
-/

/-! ## Python-style string helpers -/

/-- Python slicing s[:n], by characters. -/
def pySlice (s : String) (n : Nat) : String := ⟨s.data.take n⟩

/-- Python str.strip with no arguments: drop whitespace from both ends. -/
def pyStrip (s : String) : String :=
  ⟨((s.data.dropWhile Char.isWhitespace).reverse.dropWhile Char.isWhitespace).reverse⟩

/-- Python str.rstrip cs: drop the characters of cs from the right end. -/
def pyRstrip (s : String) (cs : List Char) : String :=
  ⟨(s.data.reverse.dropWhile (fun c => c ∈ cs)).reverse⟩

/-- Python " ".join(parts). -/
def joinParts (parts : List String) : String := String.intercalate " " parts

/-! ## Association lists standing for Python dicts with open key sets -/

/-- Lookup in an association list (Python d.get(k) / d[k] check). -/
def alookup {β : Type} : List (String × β) → String → Option β
  | [], _ => none
  | kv :: rest, k => if kv.1 = k then some kv.2 else alookup rest k

/-- Python d[k] = g(d[k]) guarded by "if k in d": update the value at a key
that is present, leave the dict unchanged when the key is absent. -/
def setIfMember {β : Type} (st : List (String × β)) (k : String) (g : β → β) :
    List (String × β) :=
  st.map fun kv => if kv.1 = k then (kv.1, g kv.2) else kv

/-- The merge loop of run_pipeline step 2 (src/framing_agent.py lines
242-252): for every key/value pair of the classifier result, when the key is
already in the state dict, combine the old and new value with f. -/
def dictMerge {β : Type} (f : β → β → β) (st res : List (String × β)) :
    List (String × β) :=
  res.foldl (fun acc kv => setIfMember acc kv.1 (fun old => f old kv.2)) st

/-- Per-orientation weight merge: state[k] = max(state[k], v). -/
def mergeProfiles (st res : List (String × Rat)) : List (String × Rat) :=
  dictMerge (fun old v => max old v) st res

/-- Per-orientation keyword merge:
existing = set(state[k]); existing.update(v); state[k] = list(existing).
Python set order is unspecified; the model fixes one order and the theorems
about the merge only use membership. -/
def mergeKeywordMaps (st res : List (String × List String)) :
    List (String × List String) :=
  dictMerge (fun old v => (old ++ v).dedup) st res

/-! ## JSON values (the payload of an extract tag, parsed by json.loads) -/

/-- A parsed JSON value.  Numbers are modelled as integers; every concrete
signal produced or consumed by the sources uses integers only. -/
inductive JValue where
  | null : JValue
  | bool : Bool → JValue
  | num : Int → JValue
  | str : String → JValue
  | arr : List JValue → JValue
  | obj : List (String × JValue) → JValue

/-- Python truthiness of a parsed JSON value. -/
def jTruthy : JValue → Bool
  | .null => false
  | .bool b => b
  | .num n => n != 0
  | .str s => s != ""
  | .arr xs => !xs.isEmpty
  | .obj fs => !fs.isEmpty

/-- Python equality of a (possibly absent) JSON value with a string literal,
as in: phase == "tension" where phase = signal.get("phase"). -/
def isStr (j : Option JValue) (s : String) : Bool :=
  match j with
  | some (.str t) => t = s
  | _ => false

/-- Python int(...) coercion implicit in 0 <= selected_idx < len(rq_list):
the comparison succeeds for ints and bools (bool is an int in Python) and
raises TypeError otherwise. -/
inductive PyErr where
  | attributeError : PyErr
  | typeError : PyErr
  | indexError : PyErr
deriving DecidableEq

/-- Evaluate a JSON value as a Python integer for a comparison, raising
TypeError for values that do not support integer comparison. -/
def jIndex : JValue → Except PyErr Int
  | .num n => .ok n
  | .bool b => .ok (if b then 1 else 0)
  | _ => .error .typeError

/-- The observable outcomes of the regex search plus json.loads in
_extract_tag (src/conversation_engine.py lines 92-100): either the reply
holds no extract tag, or the tag content fails json.loads, or it parses to
a JSON value. -/
inductive TagContent where
  | absent : TagContent
  | invalid : TagContent
  | parsed : JValue → TagContent

/-- _extract_tag: a parsed dict-or-other value, or None on a missing tag or
a JSONDecodeError. -/
def extract_tag : TagContent → Option JValue
  | .absent => none
  | .invalid => none
  | .parsed j => some j

/-! ## Conversation engine data model (src/conversation_engine.py) -/

/-- The tension dict produced by the TensionExtractor skill; the code reads
its three keys with .get(..., ""), folded into plain string fields here. -/
structure Tension where
  dominant_assumption : String
  blind_spot : String
  core_gap : String
deriving DecidableEq, Inhabited

/-- The framing structure (_empty_framing, src/conversation_engine.py lines
76-89): a dict with ten fixed keys. -/
structure Framing where
  projectName : String
  owner : String
  researchType : String
  background : String
  purpose : String
  rq : String
  method : String
  result : String
  contribution : String
  year : String
deriving DecidableEq, Inhabited

/-- _empty_framing: every field empty except Year (str(datetime.now().year),
passed in as a parameter since it is an environment reading). -/
def empty_framing (year : String) : Framing :=
  { projectName := "", owner := "", researchType := "", background := "",
    purpose := "", rq := "", method := "", result := "", contribution := "",
    year := year }

/-- An element of the research_questions list returned by the
ResearchQuestionGenerator skill; the code reads item.get("question", "")
and the spec records a type tag alongside. -/
structure RQItem where
  question : String
  qtype : String
deriving DecidableEq, Inhabited

/-- A conversation session (the dict built by start_session).  The auxiliary
cache session["_tension"] is present only after a tension extraction, hence
Option; likewise session["language"] is set on the first processed message. -/
structure Session where
  id : String
  phase : String
  phase_index : Nat
  messages : List (String × String)
  framing : Framing
  owner : String
  raw_input_parts : List String
  rq_candidates : List RQItem
  tension : Option Tension
  language : Option String
deriving DecidableEq, Inhabited

/-- PHASE_ORDER (src/conversation_engine.py lines 30-37). -/
def PHASE_ORDER : List String :=
  ["greeting", "tension_discovery", "positioning", "question_sharpening",
   "method_contribution", "complete"]

/-- start_session (src/conversation_engine.py lines 128-155); the uuid and
the current year are environment readings passed in as parameters. -/
def start_session (id owner year : String) : Session :=
  { id := id, phase := "greeting", phase_index := 0, messages := [],
    framing := { empty_framing year with owner := owner }, owner := owner,
    raw_input_parts := [], rq_candidates := [], tension := none,
    language := none }

/-- _detect_language: count CJK characters; "zh" when the count exceeds a
tenth of the character count.  The Python comparison cjk > len * 0.1 uses a
float; it agrees with the exact rational comparison for every length below
2 to the 53rd, which covers every real message. -/
def detect_language (text : String) : String :=
  let cjk := (text.data.filter
    (fun c => Char.ofNat 0x4e00 ≤ c ∧ c ≤ Char.ofNat 0x9fff)).length
  if cjk * 10 > text.length then "zh" else "en"

/-- The outputs the completion service may return for each skill that
_run_extraction invokes.  Each field takes the output language (from
_with_lang) and the payload the source passes, and returns the value the
source reads out of the parsed JSON reply (with the .get defaults already
applied, since a missing key reads as the default). -/
structure SkillOracle where
  /-- EpistemicModeClassifier: lang, raw_input ↦ mode. -/
  modeClassifier : String → String → String
  /-- TensionExtractor: lang, raw_input ↦ tension. -/
  tensionExtractor : String → String → Tension
  /-- ResearchPositionBuilder: lang, mode, cached tension ↦ research_position. -/
  positionBuilder : String → String → Option Tension → String
  /-- ResearchQuestionGenerator: lang, research_position, mode ↦ questions. -/
  questionGenerator : String → String → String → List RQItem
  /-- MethodInferrer: lang, mode, selected_rq ↦ method. -/
  methodInferrer : String → String → String → String
  /-- ResultInferrer: lang, mode, selected_rq, method ↦ result. -/
  resultInferrer : String → String → String → String → String
  /-- ContributionClaimer: lang, selected_rq, mode, cached tension ↦ contribution. -/
  contributionClaimer : String → String → String → Option Tension → String

/-- _run_extraction (src/conversation_engine.py lines 251-333).  Returns the
mutated session and the exception, if one was raised (a TypeError from the
selected_index comparison is the only possibility); the mutations performed
before the raise are kept, as they are on the Python session object. -/
def run_extraction (o : SkillOracle) (s : Session)
    (fields : List (String × JValue)) : Session × Option PyErr :=
  let phase := alookup fields "phase"
  let raw_input := joinParts s.raw_input_parts
  let lang := s.language.getD "en"
  if isStr phase "tension" then
    let mode := o.modeClassifier lang raw_input
    let s := { s with framing := { s.framing with researchType := mode } }
    let t := o.tensionExtractor lang raw_input
    let s := { s with
      framing := { s.framing with background :=
        t.dominant_assumption ++ " " ++ t.blind_spot ++ " " ++ t.core_gap },
      tension := some t }
    (s, none)
  else if isStr phase "positioning" then
    let mode := s.framing.researchType
    let pos := o.positionBuilder lang mode s.tension
    ({ s with framing := { s.framing with purpose := pos } }, none)
  else if isStr phase "question" then
    let mode := s.framing.researchType
    let purpose := s.framing.purpose
    let rq_list := o.questionGenerator lang purpose mode
    let s := { s with rq_candidates := rq_list }
    match jIndex ((alookup fields "selected_index").getD (.num 0)) with
    | .error e => (s, some e)
    | .ok idx =>
      if 0 ≤ idx ∧ idx < rq_list.length then
        ({ s with framing := { s.framing with
            rq := (rq_list[idx.toNat]?.getD default).question } }, none)
      else if rq_list = [] then
        (s, none)
      else
        ({ s with framing := { s.framing with
            rq := (rq_list.headD default).question } }, none)
  else if isStr phase "method_contribution" then
    let mode := s.framing.researchType
    let selected_rq := s.framing.rq
    let t := s.tension
    let method := o.methodInferrer lang mode selected_rq
    let s := { s with framing := { s.framing with method := method } }
    let result := o.resultInferrer lang mode selected_rq s.framing.method
    let s := { s with framing := { s.framing with result := result } }
    let contrib := o.contributionClaimer lang selected_rq mode t
    let s := { s with framing := { s.framing with contribution := contrib } }
    let raw := joinParts s.raw_input_parts
    ({ s with framing := { s.framing with
        projectName := pyStrip (pyRstrip (pyStrip (pySlice raw 100))
          ['?', '!', '.']) } }, none)
  else
    (s, none)

/-- The outcome of process_message: the returned extraction_happened flag,
or the exception the call raised. -/
inductive PMOut where
  | ok : Bool → PMOut
  | raised : PyErr → PMOut
deriving DecidableEq

/-- The mutations process_message performs before the completion call:
accumulate raw input, detect the language on the first message, advance
greeting to tension_discovery, append the user message to the transcript. -/
def preTurn (s : Session) (user_message : String) : Session :=
  let s := { s with raw_input_parts := s.raw_input_parts ++ [user_message] }
  let s := match s.language with
    | none => { s with language := some (detect_language user_message) }
    | some _ => s
  let s := if s.phase = "greeting" then
    { s with phase := "tension_discovery", phase_index := 1 } else s
  { s with messages := s.messages ++ [("user", user_message)] }

/-- The phase advance after a successful extraction:
next_index = phase_index + 1; take the next entry of PHASE_ORDER when the
index is in range, otherwise stay. -/
def advancePhase (s : Session) : Session :=
  let next := s.phase_index + 1
  if next < PHASE_ORDER.length then
    { s with phase := PHASE_ORDER.getD next "", phase_index := next }
  else s

/-- The returned-normally tail of process_message: store the cleaned
assistant reply in the transcript and report extraction_happened. -/
def finishTurn (s : Session) (agent_text : String) (eh : Bool) :
    Session × PMOut :=
  ({ s with messages := s.messages ++ [("assistant", agent_text)] }, .ok eh)

/-- The ready branch of process_message: run the extraction, then advance
the phase; an exception from the extraction propagates, keeping the
mutations made so far. -/
def afterReady (o : SkillOracle) (s : Session)
    (fields : List (String × JValue)) (agent_text : String) :
    Session × PMOut :=
  match run_extraction o s fields with
  | (s, some e) => (s, .raised e)
  | (s, none) => finishTurn (advancePhase s) agent_text true

/-- process_message (src/conversation_engine.py lines 158-228) for an
existing session.  The completion reply is an external input, given by the
extract-tag content the reply carries and the cleaned user-facing text
(_clean_response strips the tag).  Returns the session as mutated by the
turn together with the outcome. -/
def process_message (o : SkillOracle) (s : Session) (user_message : String)
    (tag : TagContent) (agent_text : String) : Session × PMOut :=
  let s := preTurn s user_message
  match extract_tag tag with
  | none => finishTurn s agent_text false
  | some j =>
    if jTruthy j then
      match j with
      | .obj fields =>
        match alookup fields "ready" with
        | some r =>
          if jTruthy r then afterReady o s fields agent_text
          else finishTurn s agent_text false
        | none => finishTurn s agent_text false
      | _ => (s, .raised .attributeError)
    else finishTurn s agent_text false

/-- The condition under which process_message takes the extraction branch:
the reply carries a parsed extract dict that is truthy and whose ready
entry is truthy. -/
def readySignal (tag : TagContent) : Bool :=
  match extract_tag tag with
  | some (.obj fields) =>
    jTruthy (.obj fields) && jTruthy ((alookup fields "ready").getD .null)
  | _ => false

/-- The phase index a session holds right before the signal inspection of a
turn: the greeting auto-advance has already happened. -/
def preIdx (s : Session) : Nat :=
  if s.phase = "greeting" then 1 else s.phase_index

/-- The phase a session holds right before the signal inspection of a turn. -/
def prePhase (s : Session) : String :=
  if s.phase = "greeting" then "tension_discovery" else s.phase

/-- A session is well formed when its phase index is in range and its phase
string is the corresponding entry of PHASE_ORDER. -/
def WFSession (s : Session) : Prop :=
  s.phase_index < PHASE_ORDER.length ∧
  s.phase = PHASE_ORDER.getD s.phase_index ""

/-! ## Session store (_save_session, src/conversation_engine.py lines 49-55) -/

/-- The file-backed session store: session id ↦ persisted session. -/
abbrev SessionStore := List (String × Session)

/-- The raw write of a session file (path.write_text of the serialised
session).  Whether the write succeeds is an environment outcome, passed in
as ok; a failing write raises. -/
def session_write (ok : Bool) (store : SessionStore) (s : Session) :
    Except String SessionStore :=
  if ok then .ok ((s.id, s) :: store.filter (fun kv => kv.1 != s.id))
  else .error "write failed"

/-- _save_session: try the write; except Exception: pass.  The second
component is the list of log records the call emits about a degraded
condition — the source logs nothing on either path. -/
def save_session (ok : Bool) (store : SessionStore) (s : Session) :
    SessionStore × List String :=
  match session_write ok store s with
  | .ok st => (st, [])
  | .error _ => (store, [])

/-! ## Shared-state pipeline (src/framing_agent.py) -/

/-- rule_engine_output as stored in the shared state (the five .get defaults
of steps 3 applied). -/
structure RuleEngineOutput where
  dominant_orientation : String
  rq_templates : List String
  method_bias : List String
  contribution_bias : List String
  logic_pattern : String
deriving DecidableEq, Inhabited

/-- coherence_notes as stored in the shared state. -/
structure CoherenceNotes where
  logical_gaps : List String
  scope_issues : List String
  alignment_assessment : String
deriving DecidableEq, Inhabited

/-- A keyword object from Notion or other sources. -/
structure Keyword where
  term : String
  role : String
  weight : Option Rat
deriving DecidableEq

/-- The object heap holding the Python dict objects that run_pipeline can
mutate in place: the epistemic_profile dict and the keyword_map dict.  A
cell index below the allocation counter is an allocated dict object;
copy.deepcopy and a freshly parsed skill result allocate new cells. -/
structure ObjHeap where
  prof : Nat → List (String × Rat)
  kw : Nat → List (String × List String)
  nextProf : Nat
  nextKw : Nat

/-- Write one cell of a heap store. -/
def setCell {α : Type} (f : Nat → α) (i : Nat) (v : α) : Nat → α :=
  fun j => if j = i then v else f j

/-- Allocate a fresh epistemic_profile dict holding v; the new object is the
cell at the old nextProf. -/
def allocProf (h : ObjHeap) (v : List (String × Rat)) : ObjHeap :=
  { h with prof := setCell h.prof h.nextProf v, nextProf := h.nextProf + 1 }

/-- Allocate a fresh keyword_map dict holding v; the new object is the cell
at the old nextKw. -/
def allocKw (h : ObjHeap) (v : List (String × List String)) : ObjHeap :=
  { h with kw := setCell h.kw h.nextKw v, nextKw := h.nextKw + 1 }

/-- In-place mutation of an allocated epistemic_profile dict. -/
def setProf (h : ObjHeap) (r : Nat) (v : List (String × Rat)) : ObjHeap :=
  { h with prof := setCell h.prof r v }

/-- In-place mutation of an allocated keyword_map dict. -/
def setKw (h : ObjHeap) (r : Nat) (v : List (String × List String)) :
    ObjHeap :=
  { h with kw := setCell h.kw r v }

/-- The shared pipeline state (INITIAL_STATE, src/framing_agent.py lines
34-75).  The two nested dicts that the pipeline mutates in place are held by
reference into the object heap; every other field is rebound, never mutated,
so it is held by value. -/
structure PipelineState where
  raw_input : String
  mode : String
  tension : Tension
  profRef : Nat
  kwRef : Nat
  keyword_roles : List (String × String)
  rule_engine_output : RuleEngineOutput
  research_position : String
  research_questions : List RQItem
  selected_rq : String
  method : String
  result_type : String
  contribution : String
  coherence_notes : CoherenceNotes
  abstract_en : String
  abstract_zh : String
deriving DecidableEq, Inhabited

/-- The initial epistemic_profile dict of INITIAL_STATE. -/
def INITIAL_PROFILE : List (String × Rat) :=
  [("exploratory", 0), ("critical", 0), ("problem_solving", 0),
   ("constructive", 0)]

/-- The initial keyword_map dict of INITIAL_STATE. -/
def INITIAL_KEYWORD_MAP : List (String × List String) :=
  [("exploratory", []), ("critical", []), ("problem_solving", []),
   ("constructive", [])]

/-- The module-level INITIAL_STATE constant.  Its epistemic_profile and
keyword_map dicts live at heap cell 0 of their stores (see initialHeap). -/
def INITIAL_STATE : PipelineState :=
  { raw_input := "", mode := "", tension := ⟨"", "", ""⟩, profRef := 0,
    kwRef := 0, keyword_roles := [],
    rule_engine_output := ⟨"", [], [], [], ""⟩, research_position := "",
    research_questions := [], selected_rq := "", method := "",
    result_type := "", contribution := "",
    coherence_notes := ⟨[], [], ""⟩, abstract_en := "", abstract_zh := "" }

/-- The heap at module load: only the INITIAL_STATE dicts are allocated. -/
def initialHeap : ObjHeap :=
  { prof := fun _ => INITIAL_PROFILE, kw := fun _ => INITIAL_KEYWORD_MAP,
    nextProf := 1, nextKw := 1 }

/-- The NotionKeywordSync result: three .get reads, each key optional. -/
structure KeywordSyncResult where
  keyword_map : Option (List (String × List String))
  keyword_roles : Option (List (String × String))
  epistemic_profile : Option (List (String × Rat))

/-- The EpistemicModeClassifier result in run_pipeline step 2: mode is read
with result["mode"] (required), the two merge sources are optional. -/
structure ModeResult where
  mode : String
  epistemic_profile : Option (List (String × Rat))
  keyword_map : Option (List (String × List String))

/-- The EpistemicRuleEngine result: five optional keys read with .get. -/
structure RuleResult where
  dominant_orientation : Option String
  rq_templates : Option (List String)
  method_bias : Option (List String)
  contribution_bias : Option (List String)
  logic_pattern : Option String

/-- The ContributionClaimer result in run_pipeline step 8: both keys are
read with result[...] (required). -/
structure ContribResult where
  result_type : String
  contribution : String

/-- The outputs the completion service may return for each pipeline skill.
Each field maps the payload the source passes (in source order) to the
values the source reads back. -/
structure PipelineOracle where
  /-- NotionKeywordSync: keywords ↦ result. -/
  notionKeywordSync : List Keyword → KeywordSyncResult
  /-- EpistemicModeClassifier: raw_input ↦ result. -/
  epistemicModeClassifier : String → ModeResult
  /-- EpistemicRuleEngine: epistemic_profile, keyword_map, keyword_roles ↦ result. -/
  epistemicRuleEngine : List (String × Rat) → List (String × List String) →
    List (String × String) → RuleResult
  /-- TensionExtractor: raw_input, keyword_map ↦ tension (required keys). -/
  tensionExtractor : String → List (String × List String) → Tension
  /-- ResearchPositionBuilder: mode, tension, keyword_map,
  dominant_orientation ↦ research_position (required key). -/
  positionBuilder : String → Tension → List (String × List String) →
    String → String
  /-- ResearchQuestionGenerator: research_position, rq_templates,
  logic_pattern, dominant_orientation, keyword_map ↦ research_questions
  (required key). -/
  questionGenerator : String → List String → String → String →
    List (String × List String) → List RQItem
  /-- MethodLogicAligner: selected_rq, method_bias, contribution_bias,
  dominant_orientation, logic_pattern, keyword_map, tension ↦ method
  (.get "method" ""). -/
  methodLogicAligner : String → List String → List String → String →
    String → List (String × List String) → Tension → Option String
  /-- ContributionClaimer: selected_rq, mode, tension, keyword_map,
  contribution_bias ↦ result. -/
  contributionClaimer : String → String → Tension →
    List (String × List String) → List String → ContribResult
  /-- CoherenceChecker: mode, selected_rq, tension, contribution, method,
  keyword_map ↦ coherence notes (required keys). -/
  coherenceChecker : String → String → Tension → String → String →
    List (String × List String) → CoherenceNotes
  /-- AbstractGenerator: background, purpose, method, result, contribution,
  epistemic_profile, rule_engine_output, keyword_map ↦ the two optional
  abstracts. -/
  abstractGenerator : String → String → String → String → String →
    List (String × Rat) → RuleEngineOutput →
    List (String × List String) → Option String × Option String

/-- The rule_engine_output assembly shared by run_pipeline step 3 and
update_keywords step 2: the five .get defaults. -/
def ruleOutputOf (rr : RuleResult) : RuleEngineOutput :=
  { dominant_orientation := rr.dominant_orientation.getD "",
    rq_templates := rr.rq_templates.getD [],
    method_bias := rr.method_bias.getD [],
    contribution_bias := rr.contribution_bias.getD [],
    logic_pattern := rr.logic_pattern.getD "" }

/-- update_keywords (src/framing_agent.py lines 162-202): re-run
NotionKeywordSync and EpistemicRuleEngine on the state, in place. -/
def update_keywords (o : PipelineOracle) (st : PipelineState)
    (keywords : List Keyword) (h : ObjHeap) : PipelineState × ObjHeap :=
  let result := o.notionKeywordSync keywords
  let kwRef1 := match result.keyword_map with
    | some _ => h.nextKw
    | none => st.kwRef
  let h := match result.keyword_map with
    | some m => allocKw h m
    | none => h
  let st := { st with kwRef := kwRef1 }
  let st := { st with keyword_roles := result.keyword_roles.getD [] }
  let profRef1 := match result.epistemic_profile with
    | some _ => h.nextProf
    | none => st.profRef
  let h := match result.epistemic_profile with
    | some p => allocProf h p
    | none => h
  let st := { st with profRef := profRef1 }
  let rr := o.epistemicRuleEngine (h.prof st.profRef) (h.kw st.kwRef)
    st.keyword_roles
  let st := { st with rule_engine_output := ruleOutputOf rr }
  (st, h)

/-- The auto-select block of run_pipeline step 6: when the generated list is
non-empty, selected_rq becomes the first question. -/
def selectFirst (st : PipelineState) : PipelineState :=
  if st.research_questions.isEmpty then st
  else { st with
    selected_rq := (st.research_questions.headD default).question }

/-- Steps 7 to 10 of run_pipeline: MethodLogicAligner, ContributionClaimer,
CoherenceChecker, AbstractGenerator.  No heap write occurs here. -/
def pipelineTail (o : PipelineOracle) (st : PipelineState) (h : ObjHeap) :
    PipelineState × ObjHeap :=
  let reo := st.rule_engine_output
  let m := o.methodLogicAligner st.selected_rq reo.method_bias
    reo.contribution_bias reo.dominant_orientation reo.logic_pattern
    (h.kw st.kwRef) st.tension
  let st := { st with method := m.getD "" }
  let cr := o.contributionClaimer st.selected_rq st.mode st.tension
    (h.kw st.kwRef) reo.contribution_bias
  let st := { st with result_type := cr.result_type, contribution := cr.contribution }
  let cn := o.coherenceChecker st.mode st.selected_rq st.tension
    st.contribution st.method (h.kw st.kwRef)
  let st := { st with coherence_notes := cn }
  let ab := o.abstractGenerator
    (st.tension.dominant_assumption ++ " " ++ st.tension.blind_spot ++ " "
      ++ st.tension.core_gap)
    st.research_position st.method st.result_type st.contribution
    (h.prof st.profRef) st.rule_engine_output (h.kw st.kwRef)
  let st := { st with abstract_en := ab.1.getD "", abstract_zh := ab.2.getD "" }
  (st, h)

/-- The closing of run_pipeline step 6 followed by steps 7 to 10. -/
def finishPipeline (o : PipelineOracle) (st : PipelineState) (h : ObjHeap) :
    PipelineState × ObjHeap :=
  pipelineTail o (selectFirst st) h

/-- Steps 1 and 2 of run_pipeline (src/framing_agent.py lines 225-253),
given the two skill results: the three step-1 assignments (keyword_map and
epistemic_profile keep the state dict when the result omits the key,
keyword_roles defaults to the empty dict), then the step-2 mode assignment
and the additive in-place merge of the classifier-provided profile and
keyword map. -/
def pipelineStep12 (result : KeywordSyncResult) (mr : ModeResult)
    (st : PipelineState) (h : ObjHeap) : PipelineState × ObjHeap :=
  let kwRef1 := match result.keyword_map with
    | some _ => h.nextKw
    | none => st.kwRef
  let h := match result.keyword_map with
    | some m => allocKw h m
    | none => h
  let st := { st with kwRef := kwRef1 }
  let st := { st with keyword_roles := result.keyword_roles.getD [] }
  let profRef1 := match result.epistemic_profile with
    | some _ => h.nextProf
    | none => st.profRef
  let h := match result.epistemic_profile with
    | some p => allocProf h p
    | none => h
  let st := { st with profRef := profRef1 }
  let st := { st with mode := mr.mode }
  let h := match mr.epistemic_profile with
    | some pr2 => setProf h st.profRef (mergeProfiles (h.prof st.profRef) pr2)
    | none => h
  let h := match mr.keyword_map with
    | some km2 => setKw h st.kwRef (mergeKeywordMaps (h.kw st.kwRef) km2)
    | none => h
  (st, h)

/-- The opening of run_pipeline (src/framing_agent.py lines 210-253):
state = copy.deepcopy(INITIAL_STATE) — modelled as allocating fresh heap
cells holding copies of the INITIAL_STATE dicts — then
state["raw_input"] = raw_input, then steps 1 and 2 (pipelineStep12 applied
to the two skill results; state raw_input, which step 2 reads, is the
caller raw input). -/
def pipelinePrefix (o : PipelineOracle) (raw_input : String)
    (keywords : Option (List Keyword)) (h : ObjHeap) :
    PipelineState × ObjHeap :=
  let pr := h.nextProf
  let h := allocProf h (h.prof INITIAL_STATE.profRef)
  let kr := h.nextKw
  let h := allocKw h (h.kw INITIAL_STATE.kwRef)
  let st := { INITIAL_STATE with profRef := pr, kwRef := kr, raw_input := raw_input }
  let kw_input := keywords.getD []
  pipelineStep12 (o.notionKeywordSync kw_input)
    (o.epistemicModeClassifier st.raw_input) st h

/-- run_pipeline (src/framing_agent.py lines 210-377): the deepcopy and
steps 1 and 2 (pipelinePrefix), then steps 3 to 10.  Takes the oracle for
the ten completion calls, the raw input, the optional keyword list, and the
object heap in which INITIAL_STATE lives; returns the final state and heap. -/
def run_pipeline (o : PipelineOracle) (raw_input : String)
    (keywords : Option (List Keyword)) (h0 : ObjHeap) :
    PipelineState × ObjHeap :=
  let p := pipelinePrefix o raw_input keywords h0
  let st := p.1
  let h := p.2
  let rr := o.epistemicRuleEngine (h.prof st.profRef) (h.kw st.kwRef)
    st.keyword_roles
  let st := { st with rule_engine_output := ruleOutputOf rr }
  let reo := st.rule_engine_output
  let t := o.tensionExtractor st.raw_input (h.kw st.kwRef)
  let st := { st with tension := t }
  let pos := o.positionBuilder st.mode st.tension (h.kw st.kwRef)
    reo.dominant_orientation
  let st := { st with research_position := pos }
  let qs := o.questionGenerator st.research_position reo.rq_templates
    reo.logic_pattern reo.dominant_orientation (h.kw st.kwRef)
  let st := { st with research_questions := qs }
  finishPipeline o st h

/-! ## Notion-mapped pipeline (src/research_framing_agent.py) -/

/-- The outputs the completion service may return for each skill of
run_notion_pipeline.  Each field maps the payload the source passes to the
value the source reads with result[...] (all required keys here). -/
structure NotionOracle where
  /-- EpistemicModeClassifier: raw_input ↦ mode. -/
  modeClassifier : String → String
  /-- TensionExtractor: raw_input ↦ tension. -/
  tensionExtractor : String → Tension
  /-- ResearchPositionBuilder: mode, tension ↦ research_position. -/
  positionBuilder : String → Tension → String
  /-- ResearchQuestionGenerator: research_position, mode ↦ questions. -/
  questionGenerator : String → String → List RQItem
  /-- MethodInferrer: mode, selected_rq ↦ method. -/
  methodInferrer : String → String → String
  /-- ResultInferrer: mode, selected_rq, method ↦ result. -/
  resultInferrer : String → String → String → String
  /-- ContributionClaimer: selected_rq, mode, tension ↦ contribution. -/
  contributionClaimer : String → String → Tension → String

/-- run_notion_pipeline (src/research_framing_agent.py lines 30-135).  The
current year is an environment reading passed as a parameter.  Step 5 reads
research_questions[0] unconditionally, so an empty generated list raises an
IndexError, which the model makes explicit. -/
def run_notion_pipeline (o : NotionOracle) (raw_input owner year : String) :
    Except PyErr Framing :=
  let research_type := o.modeClassifier raw_input
  let t := o.tensionExtractor raw_input
  let background := "Dominant assumption: " ++ t.dominant_assumption ++
    " Blind spot: " ++ t.blind_spot ++ " Core gap: " ++ t.core_gap
  let purpose := o.positionBuilder research_type t
  let research_questions := o.questionGenerator purpose research_type
  match research_questions with
  | [] => .error .indexError
  | q :: _ =>
    let selected_rq := q.question
    let method := o.methodInferrer research_type selected_rq
    let result := o.resultInferrer research_type selected_rq method
    let contribution := o.contributionClaimer selected_rq research_type t
    let pn := pyStrip (pyRstrip (pyStrip raw_input) ['?', '!', '.'])
    let project_name := if pn.length > 100 then pySlice pn 97 ++ "..." else pn
    .ok { projectName := project_name, owner := owner,
          researchType := research_type, background := background,
          purpose := purpose, rq := selected_rq, method := method,
          result := result, contribution := contribution, year := year }

/-! ## Record store mapping (src/notion_writer.py and the notion-sync route
of src/server.py) -/

/-- A Notion property value as built by the writer helpers and returned by
a page retrieval.  Text items carry the plain text, which for a page the
integration created equals the written text content. -/
inductive PropValue where
  | title : List String → PropValue
  | rich_text : List String → PropValue
  | select : Option String → PropValue
deriving DecidableEq

/-- _rich_text (src/notion_writer.py lines 68-77): one text item, content
capped at 2000 characters. -/
def rich_text_prop (value : String) : PropValue :=
  .rich_text [pySlice value 2000]

/-- _title (src/notion_writer.py lines 80-89): one text item, content capped
at 2000 characters. -/
def title_prop (value : String) : PropValue :=
  .title [pySlice value 2000]

/-- _select (src/notion_writer.py lines 92-96): a select option named by the
value, not truncated. -/
def select_prop (value : String) : PropValue :=
  .select (some value)

/-- The properties dict write_to_notion (src/notion_writer.py lines 107-140)
sends to the record store for a framing output. -/
def write_to_notion_properties (f : Framing) : List (String × PropValue) :=
  [("Project Name", title_prop f.projectName),
   ("Owner", rich_text_prop f.owner),
   ("Research Type", select_prop f.researchType),
   ("Background", rich_text_prop f.background),
   ("Purpose", rich_text_prop f.purpose),
   ("RQ", rich_text_prop f.rq),
   ("Method", rich_text_prop f.method),
   ("Result", rich_text_prop f.result),
   ("Contribution", rich_text_prop f.contribution),
   ("Year", rich_text_prop f.year)]

/-- One field read of the notion_sync route (src/server.py lines 270-287):
title and rich_text take the plain text of the first item when one exists,
select takes the option name when the option is set, anything else reads as
the empty string. -/
def read_property (props : List (String × PropValue)) (field : String) :
    String :=
  match alookup props field with
  | some (.title items) => items.headD ""
  | some (.rich_text items) => items.headD ""
  | some (.select name_) => name_.getD ""
  | none => ""

/-- The framing dict the notion_sync route assembles from a retrieved page. -/
def notion_sync_framing (props : List (String × PropValue)) : Framing :=
  { projectName := read_property props "Project Name",
    owner := read_property props "Owner",
    researchType := read_property props "Research Type",
    background := read_property props "Background",
    purpose := read_property props "Purpose",
    rq := read_property props "RQ",
    method := read_property props "Method",
    result := read_property props "Result",
    contribution := read_property props "Contribution",
    year := read_property props "Year" }

/-- The store-imposed truncation of a framing record: the title and the
eight rich_text fields are capped at 2000 characters, the select field is
not truncated. -/
def truncate_framing (f : Framing) : Framing :=
  { projectName := pySlice f.projectName 2000,
    owner := pySlice f.owner 2000,
    researchType := f.researchType,
    background := pySlice f.background 2000,
    purpose := pySlice f.purpose 2000,
    rq := pySlice f.rq 2000,
    method := pySlice f.method 2000,
    result := pySlice f.result 2000,
    contribution := pySlice f.contribution 2000,
    year := pySlice f.year 2000 }

/-! ## Lemmas about association-list dicts and the step-2 merge -/

theorem alookup_eq_none_of_not_mem {β : Type} (st : List (String × β))
    (k : String) (h : k ∉ st.map Prod.fst) : alookup st k = none := by
  induction st with
  | nil => rfl
  | cons kv rest ih =>
    obtain ⟨k1, v1⟩ := kv
    simp only [List.map_cons, List.mem_cons, not_or] at h
    have hne : ¬ k1 = k := fun hk => h.1 hk.symm
    simp only [alookup, if_neg hne]
    exact ih h.2

theorem alookup_setIfMember_self {β : Type} (st : List (String × β))
    (k : String) (g : β → β) :
    alookup (setIfMember st k g) k = (alookup st k).map g := by
  induction st with
  | nil => rfl
  | cons kv rest ih =>
    obtain ⟨k1, v1⟩ := kv
    simp only [setIfMember, List.map_cons] at ih ⊢
    by_cases hk : k1 = k
    · simp only [if_pos hk, alookup, if_pos hk]
      rfl
    · simp only [if_neg hk, alookup]
      exact ih

theorem alookup_setIfMember_ne {β : Type} (st : List (String × β))
    {k k' : String} (g : β → β) (hne : k ≠ k') :
    alookup (setIfMember st k g) k' = alookup st k' := by
  induction st with
  | nil => rfl
  | cons kv rest ih =>
    obtain ⟨k1, v1⟩ := kv
    simp only [setIfMember, List.map_cons] at ih ⊢
    by_cases hk : k1 = k
    · have h1 : ¬ k1 = k' := by rw [hk]; exact hne
      simp only [if_pos hk, alookup]
      rw [if_neg h1, if_neg h1]
      exact ih
    · simp only [if_neg hk, alookup]
      by_cases h2 : k1 = k'
      · rw [if_pos h2, if_pos h2]
      · rw [if_neg h2, if_neg h2]
        exact ih

theorem dictMerge_alookup_none {β : Type} (f : β → β → β)
    (res : List (String × β)) (k : String)
    (h : alookup res k = none) (st : List (String × β)) :
    alookup (dictMerge f st res) k = alookup st k := by
  induction res generalizing st with
  | nil => rfl
  | cons kv rest ih =>
    obtain ⟨k1, v1⟩ := kv
    by_cases hk : k1 = k
    · simp [alookup, hk] at h
    · have h2 : alookup rest k = none := by simpa [alookup, hk] using h
      simp only [dictMerge, List.foldl_cons]
      have hrec := ih h2 (setIfMember st k1 (fun old => f old v1))
      simp only [dictMerge] at hrec
      rw [hrec]
      exact alookup_setIfMember_ne st _ hk

theorem dictMerge_alookup_some {β : Type} (f : β → β → β)
    (res : List (String × β)) (k : String) (b : β)
    (hnd : (res.map Prod.fst).Nodup) (h : alookup res k = some b)
    (st : List (String × β)) :
    alookup (dictMerge f st res) k = (alookup st k).map (fun a => f a b) := by
  induction res generalizing st with
  | nil => simp [alookup] at h
  | cons kv rest ih =>
    obtain ⟨k1, v1⟩ := kv
    simp only [List.map_cons, List.nodup_cons] at hnd
    by_cases hk : k1 = k
    · have hb : v1 = b := by simpa [alookup, hk] using h
      have hrest : alookup rest k = none :=
        alookup_eq_none_of_not_mem rest k (hk ▸ hnd.1)
      simp only [dictMerge, List.foldl_cons]
      have hrec := dictMerge_alookup_none f rest k hrest
        (setIfMember st k1 (fun old => f old v1))
      simp only [dictMerge] at hrec
      rw [hrec, hk, hb, alookup_setIfMember_self]
    · have h2 : alookup rest k = some b := by simpa [alookup, hk] using h
      simp only [dictMerge, List.foldl_cons]
      have hrec := ih hnd.2 h2 (setIfMember st k1 (fun old => f old v1))
      simp only [dictMerge] at hrec
      rw [hrec, alookup_setIfMember_ne st _ hk]

/-! ## Lemmas about the pipeline -/

theorem pipelineTail_heap (o : PipelineOracle) (st : PipelineState)
    (h : ObjHeap) : (pipelineTail o st h).2 = h := rfl

theorem pipelineTail_questions (o : PipelineOracle) (st : PipelineState)
    (h : ObjHeap) :
    (pipelineTail o st h).1.research_questions = st.research_questions := rfl

theorem pipelineTail_selected (o : PipelineOracle) (st : PipelineState)
    (h : ObjHeap) :
    (pipelineTail o st h).1.selected_rq = st.selected_rq := rfl

theorem selectFirst_questions (st : PipelineState) :
    (selectFirst st).research_questions = st.research_questions := by
  unfold selectFirst
  split <;> rfl

theorem finishPipeline_heap (o : PipelineOracle) (st : PipelineState)
    (h : ObjHeap) : (finishPipeline o st h).2 = h := rfl

theorem finishPipeline_questions (o : PipelineOracle) (st : PipelineState)
    (h : ObjHeap) :
    (finishPipeline o st h).1.research_questions = st.research_questions := by
  unfold finishPipeline
  rw [pipelineTail_questions, selectFirst_questions]

theorem finishPipeline_selected_mem (o : PipelineOracle) (st : PipelineState)
    (h : ObjHeap) (hne : (finishPipeline o st h).1.research_questions ≠ []) :
    (finishPipeline o st h).1.selected_rq ∈
      (finishPipeline o st h).1.research_questions.map
        (fun q => q.question) := by
  rw [finishPipeline_questions] at hne ⊢
  unfold finishPipeline
  rw [pipelineTail_selected]
  unfold selectFirst
  rw [if_neg (by simpa [List.isEmpty_iff] using hne)]
  cases hq : st.research_questions with
  | nil => exact absurd hq hne
  | cons q rest => simp [hq]

theorem finishPipeline_selected_empty (o : PipelineOracle)
    (st : PipelineState) (h : ObjHeap)
    (he : st.research_questions = []) :
    (finishPipeline o st h).1.selected_rq = st.selected_rq := by
  unfold finishPipeline
  rw [pipelineTail_selected]
  unfold selectFirst
  rw [if_pos (by simp [he])]

theorem setCell_ne {α : Type} (f : Nat → α) {i j : Nat} (v : α)
    (hij : j ≠ i) : setCell f i v j = f j := if_neg hij

theorem pipelinePrefix_selected (o : PipelineOracle) (raw : String)
    (kw : Option (List Keyword)) (h : ObjHeap) :
    (pipelinePrefix o raw kw h).1.selected_rq = INITIAL_STATE.selected_rq :=
  rfl

theorem run_pipeline_heap_eq (o : PipelineOracle) (raw : String)
    (kw : Option (List Keyword)) (h : ObjHeap) :
    (run_pipeline o raw kw h).2 = (pipelinePrefix o raw kw h).2 := rfl

theorem pipelineStep12_prof (result : KeywordSyncResult) (mr : ModeResult)
    (st : PipelineState) (h : ObjHeap) (r : Nat)
    (hr : r < h.nextProf) (hst : st.profRef ≠ r) :
    (pipelineStep12 result mr st h).2.prof r = h.prof r := by
  obtain ⟨km, kro, pf⟩ := result
  obtain ⟨mo, pe, kmc⟩ := mr
  cases km <;> cases pf <;> cases pe <;> cases kmc <;>
    simp only [pipelineStep12, allocProf, allocKw, setProf, setKw, setCell] <;>
    split_ifs <;> first | rfl | omega

theorem pipelineStep12_kw (result : KeywordSyncResult) (mr : ModeResult)
    (st : PipelineState) (h : ObjHeap) (r : Nat)
    (hr : r < h.nextKw) (hst : st.kwRef ≠ r) :
    (pipelineStep12 result mr st h).2.kw r = h.kw r := by
  obtain ⟨km, kro, pf⟩ := result
  obtain ⟨mo, pe, kmc⟩ := mr
  cases km <;> cases pf <;> cases pe <;> cases kmc <;>
    simp only [pipelineStep12, allocProf, allocKw, setProf, setKw, setCell] <;>
    split_ifs <;> first | rfl | omega

theorem pipelinePrefix_prof (o : PipelineOracle) (raw : String)
    (kw : Option (List Keyword)) (h : ObjHeap) (r : Nat)
    (hr : r < h.nextProf) :
    (pipelinePrefix o raw kw h).2.prof r = h.prof r := by
  unfold pipelinePrefix
  rw [pipelineStep12_prof _ _ _ _ r
    (by simp only [allocProf, allocKw]; omega)
    (by simp only []; omega)]
  simp only [allocProf, allocKw, setCell]
  split_ifs <;> first | rfl | omega

theorem pipelinePrefix_kw (o : PipelineOracle) (raw : String)
    (kw : Option (List Keyword)) (h : ObjHeap) (r : Nat)
    (hr : r < h.nextKw) :
    (pipelinePrefix o raw kw h).2.kw r = h.kw r := by
  unfold pipelinePrefix
  rw [pipelineStep12_kw _ _ _ _ r
    (by simp only [allocProf, allocKw]; omega)
    (by simp only [allocProf]; omega)]
  simp only [allocProf, allocKw, setCell]
  split_ifs <;> first | rfl | omega


/-! ## Concrete oracles used by witnesses and counterexamples -/

/-- A concrete pipeline oracle whose question generator yields three
questions. -/
def pOracle : PipelineOracle :=
  { notionKeywordSync := fun _ => ⟨none, none, none⟩,
    epistemicModeClassifier := fun _ => ⟨"Critical", none, none⟩,
    epistemicRuleEngine := fun _ _ _ =>
      ⟨some "critical", some ["T"], some ["mb"], some ["cb"], some "lp"⟩,
    tensionExtractor := fun _ _ => ⟨"A", "B", "C"⟩,
    positionBuilder := fun _ _ _ _ => "POS",
    questionGenerator := fun _ _ _ _ _ =>
      [⟨"Q1", "mechanism"⟩, ⟨"Q2", "interpretation"⟩, ⟨"Q3", "design"⟩],
    methodLogicAligner := fun _ _ _ _ _ _ _ => some "M",
    contributionClaimer := fun _ _ _ _ _ => ⟨"RT", "CO"⟩,
    coherenceChecker := fun _ _ _ _ _ _ => ⟨[], [], "ok"⟩,
    abstractGenerator := fun _ _ _ _ _ _ _ _ => (some "AE", some "AZ") }

/-- The same oracle with an empty question-generator result. -/
def pOracleEmpty : PipelineOracle :=
  { pOracle with questionGenerator := fun _ _ _ _ _ => [] }

/-- Claim C4: for every orientation present in both the keyword-sync-derived
epistemic_profile and the classifier-proposed epistemic_profile, the merged
weight produced by the step-2 merge of run_pipeline is the maximum of the
two source weights, and the merged keyword_map entry for an orientation
present in both sources has exactly the members of the union of the two
term sets. -/
theorem claim_C4 (stp resp : List (String × Rat))
    (stk resk : List (String × List String)) (k : String) (a b : Rat)
    (old v : List String)
    (hnd1 : (resp.map Prod.fst).Nodup) (h1 : alookup stp k = some a)
    (h2 : alookup resp k = some b)
    (hnd2 : (resk.map Prod.fst).Nodup) (h3 : alookup stk k = some old)
    (h4 : alookup resk k = some v) :
    alookup (mergeProfiles stp resp) k = some (max a b) ∧
    ∃ merged, alookup (mergeKeywordMaps stk resk) k = some merged ∧
      ∀ t, t ∈ merged ↔ (t ∈ old ∨ t ∈ v) := by
  constructor
  · rw [mergeProfiles, dictMerge_alookup_some _ _ _ _ hnd1 h2, h1]
    rfl
  · refine ⟨(old ++ v).dedup, ?_, ?_⟩
    · rw [mergeKeywordMaps, dictMerge_alookup_some _ _ _ _ hnd2 h4, h3]
      rfl
    · intro t
      simp [List.mem_dedup]

/-- Witness for claim C4 at a concrete input: weights one half and one
quarter merge to one half (the maximum, not the sum three quarters and not
the second value), and the keyword entries join as a set union. -/
theorem claim_C4_witness :
    alookup (mergeProfiles [("critical", (1 : Rat)/2)]
      [("critical", (1 : Rat)/4)]) "critical" = some ((1 : Rat)/2) ∧
    ∃ merged, alookup (mergeKeywordMaps [("critical", ["power"])]
      [("critical", ["hegemony"])]) "critical" = some merged ∧
      ∀ t, t ∈ merged ↔ (t ∈ ["power"] ∨ t ∈ ["hegemony"]) := by
  have h := claim_C4 [("critical", (1 : Rat)/2)] [("critical", (1 : Rat)/4)]
    [("critical", ["power"])] [("critical", ["hegemony"])] "critical"
    ((1 : Rat)/2) ((1 : Rat)/4) ["power"] ["hegemony"]
    (by decide) (by rfl) (by rfl) (by decide) (by rfl) (by rfl)
  have hmax : max ((1 : Rat)/2) ((1 : Rat)/4) = (1 : Rat)/2 := by
    rw [max_eq_left]
    norm_num
  exact ⟨by rw [h.1, hmax], h.2⟩

/-- Claim C5: the partial re-run path update_keywords re-executes only the
keyword-sync and rule-engine steps; it leaves research_position,
research_questions, selected_rq, method, result_type, contribution,
coherence_notes, the abstracts, and the upstream mode, tension and
raw_input fields of the state unchanged. -/
theorem claim_C5 (o : PipelineOracle) (st : PipelineState)
    (keywords : List Keyword) (h : ObjHeap) :
    (update_keywords o st keywords h).1.research_position =
      st.research_position ∧
    (update_keywords o st keywords h).1.research_questions =
      st.research_questions ∧
    (update_keywords o st keywords h).1.selected_rq = st.selected_rq ∧
    (update_keywords o st keywords h).1.method = st.method ∧
    (update_keywords o st keywords h).1.result_type = st.result_type ∧
    (update_keywords o st keywords h).1.contribution = st.contribution ∧
    (update_keywords o st keywords h).1.coherence_notes =
      st.coherence_notes ∧
    (update_keywords o st keywords h).1.abstract_en = st.abstract_en ∧
    (update_keywords o st keywords h).1.abstract_zh = st.abstract_zh ∧
    (update_keywords o st keywords h).1.mode = st.mode ∧
    (update_keywords o st keywords h).1.tension = st.tension ∧
    (update_keywords o st keywords h).1.raw_input = st.raw_input :=
  ⟨rfl, rfl, rfl, rfl, rfl, rfl, rfl, rfl, rfl, rfl, rfl, rfl⟩

/-- Claim C7: whenever the research_questions sequence of a full pipeline
run is non-empty, the selected_rq of the produced artifact is one of the
question strings of that sequence. -/
theorem claim_C7 (o : PipelineOracle) (raw : String)
    (kw : Option (List Keyword)) (h : ObjHeap)
    (hne : (run_pipeline o raw kw h).1.research_questions ≠ []) :
    (run_pipeline o raw kw h).1.selected_rq ∈
      (run_pipeline o raw kw h).1.research_questions.map
        (fun q => q.question) := by
  unfold run_pipeline at hne ⊢
  exact finishPipeline_selected_mem _ _ _ hne

/-- Witness for claim C7: on a concrete oracle producing three questions the
selected question is a member of the generated list. -/
theorem claim_C7_witness :
    (run_pipeline pOracle "urban farming" none initialHeap).1.research_questions ≠ [] ∧
    (run_pipeline pOracle "urban farming" none initialHeap).1.selected_rq ∈
      (run_pipeline pOracle "urban farming" none initialHeap).1.research_questions.map
        (fun q => q.question) :=
  ⟨by decide, claim_C7 pOracle "urban farming" none initialHeap (by decide)⟩

/-- Claim C10: a pipeline run never writes any heap cell allocated before it
started — in particular the INITIAL_STATE dicts at cell 0 are never mutated
and two runs share no mutable state, each starting from a fresh deep copy —
and the selected_rq field, the one artifact field that a run can leave
unwritten, then retains its INITIAL_STATE default. -/
theorem claim_C10 (o : PipelineOracle) (raw : String)
    (kw : Option (List Keyword)) (h : ObjHeap) (r : Nat) :
    (r < h.nextProf → (run_pipeline o raw kw h).2.prof r = h.prof r) ∧
    (r < h.nextKw → (run_pipeline o raw kw h).2.kw r = h.kw r) ∧
    ((run_pipeline o raw kw h).1.research_questions = [] →
      (run_pipeline o raw kw h).1.selected_rq = INITIAL_STATE.selected_rq) := by
  refine ⟨?_, ?_, ?_⟩
  · intro hr
    rw [run_pipeline_heap_eq]
    exact pipelinePrefix_prof o raw kw h r hr
  · intro hr
    rw [run_pipeline_heap_eq]
    exact pipelinePrefix_kw o raw kw h r hr
  · intro he
    unfold run_pipeline at he ⊢
    rw [finishPipeline_questions] at he
    rw [finishPipeline_selected_empty _ _ _ he]
    rfl

/-- Witness for claim C10: with a concrete oracle whose question generator
returns no questions, run from the module heap, the INITIAL_STATE cells are
unchanged and selected_rq keeps its default. -/
theorem claim_C10_witness :
    (run_pipeline pOracleEmpty "t" none initialHeap).2.prof 0 =
      initialHeap.prof 0 ∧
    (run_pipeline pOracleEmpty "t" none initialHeap).2.kw 0 =
      initialHeap.kw 0 ∧
    (run_pipeline pOracleEmpty "t" none initialHeap).1.selected_rq =
      INITIAL_STATE.selected_rq := by
  have h := claim_C10 pOracleEmpty "t" none initialHeap 0
  exact ⟨h.1 (by decide), h.2.1 (by decide), h.2.2 (by decide)⟩

/-! ## Lemmas about the conversation engine -/

theorem preTurn_phase_index (s : Session) (msg : String) :
    (preTurn s msg).phase_index = preIdx s := by
  unfold preTurn preIdx
  cases s.language <;> by_cases hg : s.phase = "greeting" <;> simp [hg]

theorem preTurn_phase (s : Session) (msg : String) :
    (preTurn s msg).phase = prePhase s := by
  unfold preTurn prePhase
  cases s.language <;> by_cases hg : s.phase = "greeting" <;> simp [hg]

theorem preTurn_framing (s : Session) (msg : String) :
    (preTurn s msg).framing = s.framing := by
  unfold preTurn
  cases s.language <;> by_cases hg : s.phase = "greeting" <;> simp [hg]

theorem preTurn_tension (s : Session) (msg : String) :
    (preTurn s msg).tension = s.tension := by
  unfold preTurn
  cases s.language <;> by_cases hg : s.phase = "greeting" <;> simp [hg]

theorem preTurn_rq_candidates (s : Session) (msg : String) :
    (preTurn s msg).rq_candidates = s.rq_candidates := by
  unfold preTurn
  cases s.language <;> by_cases hg : s.phase = "greeting" <;> simp [hg]

theorem preTurn_raw (s : Session) (msg : String) :
    (preTurn s msg).raw_input_parts = s.raw_input_parts ++ [msg] := by
  unfold preTurn
  cases s.language <;> by_cases hg : s.phase = "greeting" <;> simp [hg]

theorem preTurn_language (s : Session) (msg : String) :
    (preTurn s msg).language =
      some (s.language.getD (detect_language msg)) := by
  unfold preTurn
  cases s.language <;> by_cases hg : s.phase = "greeting" <;> simp [hg]

theorem advancePhase_index (s : Session) :
    (advancePhase s).phase_index =
      if s.phase_index + 1 < PHASE_ORDER.length then s.phase_index + 1
      else s.phase_index := by
  unfold advancePhase
  by_cases hc : s.phase_index + 1 < PHASE_ORDER.length
  · rw [if_pos hc, if_pos hc]
  · rw [if_neg hc, if_neg hc]

theorem advancePhase_phase (s : Session) :
    (advancePhase s).phase =
      if s.phase_index + 1 < PHASE_ORDER.length then
        PHASE_ORDER.getD (s.phase_index + 1) ""
      else s.phase := by
  unfold advancePhase
  by_cases hc : s.phase_index + 1 < PHASE_ORDER.length
  · rw [if_pos hc, if_pos hc]
  · rw [if_neg hc, if_neg hc]

theorem run_extraction_frame (o : SkillOracle) (s : Session)
    (fields : List (String × JValue)) :
    ((run_extraction o s fields).1.phase = s.phase) ∧
    ((run_extraction o s fields).1.phase_index = s.phase_index) ∧
    ((run_extraction o s fields).1.messages = s.messages) ∧
    ((run_extraction o s fields).1.raw_input_parts = s.raw_input_parts) ∧
    ((run_extraction o s fields).1.language = s.language) := by
  unfold run_extraction
  dsimp only
  split_ifs <;> repeat' split
  all_goals simp

/-- process_message on a parsed tag, with the signal handling exposed. -/
theorem pm_parsed (o : SkillOracle) (s : Session) (msg : String) (j : JValue)
    (txt : String) :
    process_message o s msg (.parsed j) txt =
      if jTruthy j then
        (match j with
         | .obj fields =>
           (match alookup fields "ready" with
            | some r =>
              if jTruthy r then afterReady o (preTurn s msg) fields txt
              else finishTurn (preTurn s msg) txt false
            | none => finishTurn (preTurn s msg) txt false)
         | _ => (preTurn s msg, .raised .attributeError))
      else finishTurn (preTurn s msg) txt false := rfl

/-- process_message on a parsed dict tag: the turn is an extraction turn
exactly when the ready signal holds. -/
theorem pm_obj (o : SkillOracle) (s : Session) (msg : String)
    (fields : List (String × JValue)) (txt : String) :
    process_message o s msg (.parsed (.obj fields)) txt =
      if readySignal (.parsed (.obj fields)) then
        afterReady o (preTurn s msg) fields txt
      else finishTurn (preTurn s msg) txt false := by
  rw [pm_parsed]
  unfold readySignal extract_tag
  cases hl : alookup fields "ready" with
  | none =>
    by_cases ht : jTruthy (.obj fields) <;>
      simp [hl, ht, show jTruthy JValue.null = false from rfl]
  | some r =>
    by_cases ht : jTruthy (.obj fields) <;> by_cases hr : jTruthy r <;>
      simp [hl, ht, hr]

theorem WF_greeting_index (s : Session) (hwf : WFSession s)
    (hg : s.phase = "greeting") : s.phase_index = 0 := by
  obtain ⟨h1, h2⟩ := hwf
  rw [hg] at h2
  simp only [PHASE_ORDER, List.length_cons, List.length_nil] at h1
  interval_cases h : s.phase_index <;> revert h2 <;> decide

theorem WF_complete_index (s : Session) (hwf : WFSession s)
    (hc : s.phase = "complete") : s.phase_index = 5 := by
  obtain ⟨h1, h2⟩ := hwf
  rw [hc] at h2
  simp only [PHASE_ORDER, List.length_cons, List.length_nil] at h1
  interval_cases h : s.phase_index <;> revert h2 <;> decide

/-- The three possible shapes of a processed turn: not ready (transcript
mutations only; the call returns ok-false or raises an AttributeError on a
truthy non-dict tag), ready with a raising extraction (mutations kept, no
phase advance), or ready with a completed extraction (exactly one phase
advance, capped at the end of PHASE_ORDER). -/
theorem pm_cases (o : SkillOracle) (s : Session) (msg : String)
    (tag : TagContent) (txt : String) :
    (readySignal tag = false ∧
     (process_message o s msg tag txt).1.phase_index = preIdx s ∧
     (process_message o s msg tag txt).1.phase = prePhase s ∧
     ((process_message o s msg tag txt).2 = .ok false ∨
      (process_message o s msg tag txt).2 = .raised .attributeError) ∧
     (process_message o s msg tag txt).1.framing = s.framing ∧
     (process_message o s msg tag txt).1.tension = s.tension ∧
     (process_message o s msg tag txt).1.rq_candidates = s.rq_candidates) ∨
    (readySignal tag = true ∧
     (∃ e, (process_message o s msg tag txt).2 = .raised e) ∧
     (process_message o s msg tag txt).1.phase_index = preIdx s ∧
     (process_message o s msg tag txt).1.phase = prePhase s) ∨
    (readySignal tag = true ∧
     (process_message o s msg tag txt).2 = .ok true ∧
     (process_message o s msg tag txt).1.phase_index =
       (if preIdx s + 1 < PHASE_ORDER.length then preIdx s + 1
        else preIdx s) ∧
     (process_message o s msg tag txt).1.phase =
       (if preIdx s + 1 < PHASE_ORDER.length then
          PHASE_ORDER.getD (preIdx s + 1) ""
        else prePhase s)) := by
  cases tag with
  | absent =>
    exact Or.inl ⟨rfl, preTurn_phase_index s msg, preTurn_phase s msg,
      Or.inl rfl, preTurn_framing s msg, preTurn_tension s msg,
      preTurn_rq_candidates s msg⟩
  | invalid =>
    exact Or.inl ⟨rfl, preTurn_phase_index s msg, preTurn_phase s msg,
      Or.inl rfl, preTurn_framing s msg, preTurn_tension s msg,
      preTurn_rq_candidates s msg⟩
  | parsed j =>
    rcases j with _ | b | n | t2 | xs | fields
    case obj =>
      rw [pm_obj]
      cases hrs : readySignal (TagContent.parsed (JValue.obj fields)) with
      | false =>
        rw [if_neg Bool.false_ne_true]
        exact Or.inl ⟨rfl, preTurn_phase_index s msg, preTurn_phase s msg,
          Or.inl rfl, preTurn_framing s msg, preTurn_tension s msg,
          preTurn_rq_candidates s msg⟩
      | true =>
        rw [if_pos rfl]
        unfold afterReady
        rcases hre : run_extraction o (preTurn s msg) fields with ⟨s2, oe⟩
        have hfr := run_extraction_frame o (preTurn s msg) fields
        rw [hre] at hfr
        dsimp only at hfr
        cases oe with
        | some e =>
          refine Or.inr (Or.inl ⟨rfl, ⟨e, rfl⟩, ?_, ?_⟩)
          · show s2.phase_index = preIdx s
            rw [hfr.2.1, preTurn_phase_index]
          · show s2.phase = prePhase s
            rw [hfr.1, preTurn_phase]
        | none =>
          refine Or.inr (Or.inr ⟨rfl, rfl, ?_, ?_⟩)
          · show (advancePhase s2).phase_index = _
            rw [advancePhase_index, hfr.2.1, preTurn_phase_index]
          · show (advancePhase s2).phase = _
            rw [advancePhase_phase, hfr.2.1, preTurn_phase_index, hfr.1,
              preTurn_phase]
    all_goals
      rw [pm_parsed]
    all_goals
      split
    all_goals
      exact Or.inl ⟨rfl, preTurn_phase_index s msg, preTurn_phase s msg,
        by first
          | exact Or.inr rfl
          | exact Or.inl rfl,
        preTurn_framing s msg, preTurn_tension s msg,
        preTurn_rq_candidates s msg⟩

theorem advancePhase_framing (s : Session) :
    (advancePhase s).framing = s.framing := by
  unfold advancePhase
  dsimp only
  split <;> rfl

theorem advancePhase_tension (s : Session) :
    (advancePhase s).tension = s.tension := by
  unfold advancePhase
  dsimp only
  split <;> rfl

theorem advancePhase_rq_candidates (s : Session) :
    (advancePhase s).rq_candidates = s.rq_candidates := by
  unfold advancePhase
  dsimp only
  split <;> rfl

/-- The tension branch of _run_extraction: mode classification writes
Research Type, tension extraction writes Background and the session cache. -/
theorem run_extraction_tension (o : SkillOracle) (s : Session)
    (fields : List (String × JValue))
    (hp : alookup fields "phase" = some (.str "tension")) :
    run_extraction o s fields =
      ({ s with
          framing := { s.framing with
            researchType := o.modeClassifier (s.language.getD "en")
              (joinParts s.raw_input_parts),
            background :=
              (o.tensionExtractor (s.language.getD "en")
                (joinParts s.raw_input_parts)).dominant_assumption ++ " " ++
              (o.tensionExtractor (s.language.getD "en")
                (joinParts s.raw_input_parts)).blind_spot ++ " " ++
              (o.tensionExtractor (s.language.getD "en")
                (joinParts s.raw_input_parts)).core_gap },
          tension := some (o.tensionExtractor (s.language.getD "en")
            (joinParts s.raw_input_parts)) }, none) := by
  unfold run_extraction
  rw [hp]
  rfl

/-- The positioning branch of _run_extraction: position building writes
Purpose from the cached mode and tension. -/
theorem run_extraction_positioning (o : SkillOracle) (s : Session)
    (fields : List (String × JValue))
    (hp : alookup fields "phase" = some (.str "positioning")) :
    run_extraction o s fields =
      ({ s with framing := { s.framing with
          purpose := o.positionBuilder (s.language.getD "en")
            s.framing.researchType s.tension } }, none) := by
  unfold run_extraction
  rw [hp]
  rfl

/-- The method_contribution branch of _run_extraction: writes Method,
Result, Contribution and the derived Project Name. -/
theorem run_extraction_method (o : SkillOracle) (s : Session)
    (fields : List (String × JValue))
    (hp : alookup fields "phase" = some (.str "method_contribution")) :
    run_extraction o s fields =
      ({ s with framing := { s.framing with
          method := o.methodInferrer (s.language.getD "en")
            s.framing.researchType s.framing.rq,
          result := o.resultInferrer (s.language.getD "en")
            s.framing.researchType s.framing.rq
            (o.methodInferrer (s.language.getD "en")
              s.framing.researchType s.framing.rq),
          contribution := o.contributionClaimer (s.language.getD "en")
            s.framing.rq s.framing.researchType s.tension,
          projectName := pyStrip (pyRstrip
            (pyStrip (pySlice (joinParts s.raw_input_parts) 100))
            ['?', '!', '.']) } }, none) := by
  unfold run_extraction
  rw [hp]
  rfl

/-- _run_extraction with a missing or non-string phase entry: no branch
runs, the session is unchanged and nothing is raised. -/
theorem run_extraction_none (o : SkillOracle) (s : Session)
    (fields : List (String × JValue))
    (hp : alookup fields "phase" = none) :
    run_extraction o s fields = (s, none) := by
  unfold run_extraction
  rw [hp]
  rfl

/-- The question branch of _run_extraction with no selected_index entry and
an empty generated list: only rq_candidates is written, nothing is raised. -/
theorem run_extraction_question_empty (o : SkillOracle) (s : Session)
    (fields : List (String × JValue))
    (hp : alookup fields "phase" = some (.str "question"))
    (hsel : alookup fields "selected_index" = none)
    (hq : o.questionGenerator (s.language.getD "en") s.framing.purpose
      s.framing.researchType = []) :
    run_extraction o s fields = ({ s with rq_candidates := [] }, none) := by
  unfold run_extraction
  dsimp only
  rw [hp, hsel, hq]
  rfl

/-- The question branch of _run_extraction with no selected_index entry and
a non-empty generated list: the default index zero selects the first
question. -/
theorem run_extraction_question_first (o : SkillOracle) (s : Session)
    (fields : List (String × JValue)) (q : RQItem) (rest : List RQItem)
    (hp : alookup fields "phase" = some (.str "question"))
    (hsel : alookup fields "selected_index" = none)
    (hq : o.questionGenerator (s.language.getD "en") s.framing.purpose
      s.framing.researchType = q :: rest) :
    run_extraction o s fields =
      ({ s with
          rq_candidates := q :: rest,
          framing := { s.framing with rq := q.question } }, none) := by
  unfold run_extraction
  dsimp only
  rw [hp, hsel, hq]
  simp [jIndex, isStr]

/-- The phase list has six entries. -/
theorem PHASE_ORDER_length : PHASE_ORDER.length = 6 := rfl

/-- Claim C1 (amended): across every processed turn the phase index never
decreases and the session stays aligned with PHASE_ORDER; a turn without a
ready signal keeps the phase reached after the unconditional greeting
advance; a completed ready turn advances exactly one position, capped at
the end of PHASE_ORDER; and a session in the complete phase never leaves
it.  (The original claim additionally asserted that no extraction runs in
the complete phase; the code still runs the extraction named by the
signal, see the counterexample.) -/
theorem claim_C1 (o : SkillOracle) (s : Session) (msg : String)
    (tag : TagContent) (txt : String) (hwf : WFSession s) :
    s.phase_index ≤ (process_message o s msg tag txt).1.phase_index ∧
    WFSession (process_message o s msg tag txt).1 ∧
    (readySignal tag = false →
      (process_message o s msg tag txt).1.phase_index = preIdx s) ∧
    (∀ b, (process_message o s msg tag txt).2 = .ok b →
      readySignal tag = true →
      b = true ∧
      (process_message o s msg tag txt).1.phase_index =
        (if preIdx s + 1 < PHASE_ORDER.length then preIdx s + 1
         else preIdx s)) ∧
    (s.phase = "complete" →
      (process_message o s msg tag txt).1.phase = "complete" ∧
      (process_message o s msg tag txt).1.phase_index = s.phase_index) := by
  have hpre1 : s.phase_index ≤ preIdx s := by
    unfold preIdx
    by_cases hg : s.phase = "greeting"
    · rw [if_pos hg, WF_greeting_index s hwf hg]
      omega
    · rw [if_neg hg]
  have hpre2 : preIdx s < PHASE_ORDER.length := by
    unfold preIdx
    by_cases hg : s.phase = "greeting"
    · rw [if_pos hg]
      decide
    · rw [if_neg hg]
      exact hwf.1
  have hpre3 : prePhase s = PHASE_ORDER.getD (preIdx s) "" := by
    unfold preIdx prePhase
    by_cases hg : s.phase = "greeting"
    · rw [if_pos hg, if_pos hg]
      rfl
    · rw [if_neg hg, if_neg hg]
      exact hwf.2
  have hcompl : s.phase = "complete" →
      preIdx s = s.phase_index ∧ prePhase s = s.phase ∧
      s.phase_index = 5 := by
    intro hc
    have hng : ¬ s.phase = "greeting" := by
      rw [hc]
      decide
    exact ⟨by unfold preIdx; rw [if_neg hng],
      by unfold prePhase; rw [if_neg hng],
      WF_complete_index s hwf hc⟩
  rcases pm_cases o s msg tag txt with
    ⟨hrs, hidx, hph, hout, hfrm, htn, hrq⟩ |
    ⟨hrs, ⟨e, he⟩, hidx, hph⟩ |
    ⟨hrs, hok, hidx, hph⟩
  · refine ⟨hidx ▸ hpre1, ⟨hidx ▸ hpre2, by rw [hidx, hph, hpre3]⟩,
      fun _ => hidx, ?_, ?_⟩
    · intro b hb hready
      rw [hrs] at hready
      exact absurd hready (by decide)
    · intro hc
      obtain ⟨hcp, hcq, _⟩ := hcompl hc
      exact ⟨by rw [hph, hcq, hc], by rw [hidx, hcp]⟩
  · refine ⟨hidx ▸ hpre1, ⟨hidx ▸ hpre2, by rw [hidx, hph, hpre3]⟩,
      fun _ => hidx, ?_, ?_⟩
    · intro b hb hready
      rw [he] at hb
      exact absurd hb (by simp)
    · intro hc
      obtain ⟨hcp, hcq, _⟩ := hcompl hc
      exact ⟨by rw [hph, hcq, hc], by rw [hidx, hcp]⟩
  · have hmono : s.phase_index ≤ (process_message o s msg tag txt).1.phase_index := by
      rw [hidx]
      split <;> omega
    have hwf2 : WFSession (process_message o s msg tag txt).1 := by
      constructor
      · rw [hidx]
        split
        · assumption
        · exact hpre2
      · rw [hidx, hph]
        by_cases hlt : preIdx s + 1 < PHASE_ORDER.length
        · rw [if_pos hlt, if_pos hlt]
        · rw [if_neg hlt, if_neg hlt]
          exact hpre3
    refine ⟨hmono, hwf2, ?_, ?_, ?_⟩
    · intro h
      rw [h] at hrs
      exact absurd hrs (by decide)
    · intro b hb _
      rw [hok] at hb
      cases hb
      exact ⟨rfl, hidx⟩
    · intro hc
      obtain ⟨hcp, hcq, h5⟩ := hcompl hc
      have hnlt : ¬ (preIdx s + 1 < PHASE_ORDER.length) := by
        rw [hcp, h5, PHASE_ORDER_length]
        omega
      constructor
      · rw [hph, if_neg hnlt, hcq, hc]
      · rw [hidx, if_neg hnlt, hcp]

/-- A concrete conversation oracle. -/
def oC : SkillOracle :=
  { modeClassifier := fun _ _ => "Critical",
    tensionExtractor := fun _ _ => ⟨"A", "B", "C"⟩,
    positionBuilder := fun _ _ _ => "P",
    questionGenerator := fun _ _ _ =>
      [⟨"Q1", "mechanism"⟩, ⟨"Q2", "interpretation"⟩, ⟨"Q3", "design"⟩],
    methodInferrer := fun _ _ _ => "M",
    resultInferrer := fun _ _ _ _ => "R",
    contributionClaimer := fun _ _ _ _ => "K" }

/-- A ready signal the completion service can emit, as the phase prompts of
src/chat_prompts.py instruct. -/
def mkReadyTag (ph : String) : TagContent :=
  .parsed (.obj [("phase", .str ph), ("ready", .bool true)])

/-- Witness for claim C1: the first turn of a fresh session, carrying a
ready tension signal, advances the session to index two. -/
theorem claim_C1_witness :
    (process_message oC (start_session "i" "ow" "2025") "hello"
      (mkReadyTag "tension") "r").1.phase_index =
      (if preIdx (start_session "i" "ow" "2025") + 1 < PHASE_ORDER.length
       then preIdx (start_session "i" "ow" "2025") + 1
       else preIdx (start_session "i" "ow" "2025")) := by
  have h := claim_C1 oC (start_session "i" "ow" "2025") "hello"
    (mkReadyTag "tension") "r" ⟨by decide, rfl⟩
  exact (h.2.2.2.1 true (by decide) (by decide)).2

/-- The conversation oracle of a later turn (the completion service is
nondeterministic, so different turns may classify differently). -/
def oC2 : SkillOracle :=
  { oC with
      modeClassifier := fun _ _ => "Exploratory",
      tensionExtractor := fun _ _ => ⟨"X", "Y", "Z"⟩ }

/-- A session reached from start_session after one ready tension turn: it
sits in the positioning phase. -/
def sPositioning : Session :=
  (process_message oC (start_session "sid" "own" "2025") "hello topic"
    (mkReadyTag "tension") "r1").1

/-- The same run continued through the remaining ready turns: it sits in
the complete phase. -/
def sComplete : Session :=
  (process_message oC
    (process_message oC
      (process_message oC sPositioning "m2"
        (mkReadyTag "positioning") "r2").1 "m3"
      (mkReadyTag "question") "r3").1 "m4"
    (mkReadyTag "method_contribution") "r4").1

/-- Counterexample to claim C1 as stated: a reachable session in the
complete phase still runs an extraction when the reply carries a ready
signal naming the tension phase — the turn reports an extraction and
overwrites Research Type — while the phase stays complete. -/
theorem claim_C1_counterexample :
    sComplete.phase = "complete" ∧
    sComplete.framing.researchType = "Critical" ∧
    (process_message oC2 sComplete "m5" (mkReadyTag "tension") "r5").2 =
      .ok true ∧
    (process_message oC2 sComplete "m5"
      (mkReadyTag "tension") "r5").1.framing.researchType = "Exploratory" ∧
    (process_message oC2 sComplete "m5"
      (mkReadyTag "tension") "r5").1.phase = "complete" := by
  refine ⟨by decide, by decide, by decide, by decide, by decide⟩

/-- Claim C2 (amended): on a ready turn the extraction that runs is the one
named by the phase field of the signal, not by the session's current phase —
a "tension" signal runs mode classification and tension extraction writing
Research Type and Background, a "positioning" signal runs position building
writing Purpose, a "question" signal runs question generation writing the
candidate list and RQ, a "method_contribution" signal runs method, result
and contribution inference writing Method, Result, Contribution and the
derived Project Name — and the phase advance is one step regardless of
which (if any) extraction ran. -/
theorem claim_C2 (o : SkillOracle) (s : Session) (msg txt : String)
    (fields : List (String × JValue))
    (hready : readySignal (.parsed (.obj fields)) = true) :
    (alookup fields "phase" = some (.str "tension") →
      (process_message o s msg (.parsed (.obj fields)) txt).2 = .ok true ∧
      (process_message o s msg (.parsed (.obj fields)) txt).1.framing =
        { s.framing with
            researchType := o.modeClassifier
              (s.language.getD (detect_language msg))
              (joinParts (s.raw_input_parts ++ [msg])),
            background :=
              (o.tensionExtractor (s.language.getD (detect_language msg))
                (joinParts (s.raw_input_parts ++ [msg]))).dominant_assumption
                ++ " " ++
              (o.tensionExtractor (s.language.getD (detect_language msg))
                (joinParts (s.raw_input_parts ++ [msg]))).blind_spot
                ++ " " ++
              (o.tensionExtractor (s.language.getD (detect_language msg))
                (joinParts (s.raw_input_parts ++ [msg]))).core_gap } ∧
      (process_message o s msg (.parsed (.obj fields)) txt).1.tension =
        some (o.tensionExtractor (s.language.getD (detect_language msg))
          (joinParts (s.raw_input_parts ++ [msg])))) ∧
    (alookup fields "phase" = some (.str "positioning") →
      (process_message o s msg (.parsed (.obj fields)) txt).2 = .ok true ∧
      (process_message o s msg (.parsed (.obj fields)) txt).1.framing =
        { s.framing with
            purpose := o.positionBuilder
              (s.language.getD (detect_language msg))
              s.framing.researchType s.tension } ∧
      (process_message o s msg (.parsed (.obj fields)) txt).1.tension =
        s.tension) ∧
    (alookup fields "phase" = some (.str "question") →
      alookup fields "selected_index" = none →
      (process_message o s msg (.parsed (.obj fields)) txt).2 = .ok true ∧
      (process_message o s msg (.parsed (.obj fields)) txt).1.rq_candidates =
        o.questionGenerator (s.language.getD (detect_language msg))
          s.framing.purpose s.framing.researchType ∧
      (process_message o s msg (.parsed (.obj fields)) txt).1.framing =
        (if o.questionGenerator (s.language.getD (detect_language msg))
            s.framing.purpose s.framing.researchType = [] then s.framing
         else { s.framing with
            rq := ((o.questionGenerator (s.language.getD (detect_language msg))
              s.framing.purpose s.framing.researchType).headD
                default).question })) ∧
    (alookup fields "phase" = some (.str "method_contribution") →
      (process_message o s msg (.parsed (.obj fields)) txt).2 = .ok true ∧
      (process_message o s msg (.parsed (.obj fields)) txt).1.framing =
        { s.framing with
            method := o.methodInferrer (s.language.getD (detect_language msg))
              s.framing.researchType s.framing.rq,
            result := o.resultInferrer (s.language.getD (detect_language msg))
              s.framing.researchType s.framing.rq
              (o.methodInferrer (s.language.getD (detect_language msg))
                s.framing.researchType s.framing.rq),
            contribution := o.contributionClaimer
              (s.language.getD (detect_language msg))
              s.framing.rq s.framing.researchType s.tension,
            projectName := pyStrip (pyRstrip (pyStrip
              (pySlice (joinParts (s.raw_input_parts ++ [msg])) 100))
              ['?', '!', '.']) }) ∧
    ((process_message o s msg (.parsed (.obj fields)) txt).2 = .ok true →
      (process_message o s msg (.parsed (.obj fields)) txt).1.phase_index =
        (if preIdx s + 1 < PHASE_ORDER.length then preIdx s + 1
         else preIdx s)) := by
  have hlang : (preTurn s msg).language.getD "en" =
      s.language.getD (detect_language msg) := by
    rw [preTurn_language]
    rfl
  have hfr := preTurn_framing s msg
  have hraw := preTurn_raw s msg
  have htn := preTurn_tension s msg
  refine ⟨?_, ?_, ?_, ?_, ?_⟩
  · intro hp
    rw [pm_obj, if_pos hready]
    unfold afterReady
    rw [run_extraction_tension o (preTurn s msg) fields hp]
    refine ⟨rfl, ?_, ?_⟩
    · show (advancePhase _).framing = _
      rw [advancePhase_framing, hfr, hlang, hraw]
    · show (advancePhase _).tension = _
      rw [advancePhase_tension, hlang, hraw]
  · intro hp
    rw [pm_obj, if_pos hready]
    unfold afterReady
    rw [run_extraction_positioning o (preTurn s msg) fields hp]
    refine ⟨rfl, ?_, ?_⟩
    · show (advancePhase _).framing = _
      rw [advancePhase_framing, hfr, hlang, htn]
    · show (advancePhase _).tension = _
      rw [advancePhase_tension, htn]
  · intro hp hsel
    have hgen : o.questionGenerator ((preTurn s msg).language.getD "en")
        (preTurn s msg).framing.purpose (preTurn s msg).framing.researchType
        = o.questionGenerator (s.language.getD (detect_language msg))
            s.framing.purpose s.framing.researchType := by
      rw [hlang, hfr]
    rw [pm_obj, if_pos hready]
    unfold afterReady
    cases hq : o.questionGenerator (s.language.getD (detect_language msg))
        s.framing.purpose s.framing.researchType with
    | nil =>
      rw [run_extraction_question_empty o (preTurn s msg) fields hp hsel
        (hgen.trans hq)]
      refine ⟨rfl, ?_, ?_⟩
      · show (advancePhase _).rq_candidates = _
        rw [advancePhase_rq_candidates]
      · show (advancePhase _).framing = _
        rw [advancePhase_framing, hfr]
        simp
    | cons q rest =>
      rw [run_extraction_question_first o (preTurn s msg) fields q rest hp
        hsel (hgen.trans hq)]
      refine ⟨rfl, ?_, ?_⟩
      · show (advancePhase _).rq_candidates = _
        rw [advancePhase_rq_candidates]
      · show (advancePhase _).framing = _
        rw [advancePhase_framing, hfr]
        simp
  · intro hp
    rw [pm_obj, if_pos hready]
    unfold afterReady
    rw [run_extraction_method o (preTurn s msg) fields hp]
    refine ⟨rfl, ?_⟩
    show (advancePhase _).framing = _
    rw [advancePhase_framing, hfr, hlang, hraw, htn]
  · intro hok
    rcases pm_cases o s msg (.parsed (.obj fields)) txt with
      ⟨hrs, _, _, _, _, _, _⟩ | ⟨_, ⟨e, he⟩, _, _⟩ | ⟨_, _, hidx, _⟩
    · rw [hready] at hrs
      exact absurd hrs (by decide)
    · rw [he] at hok
      exact absurd hok (by simp)
    · exact hidx

/-- Witness for claim C2: a session in the positioning phase given a
positioning-phase ready signal has Purpose written by position building
and advances. -/
theorem claim_C2_witness :
    (process_message oC sPositioning "m2" (mkReadyTag "positioning")
      "r2").2 = .ok true ∧
    (process_message oC sPositioning "m2" (mkReadyTag "positioning")
      "r2").1.framing =
      { sPositioning.framing with
          purpose := oC.positionBuilder
            (sPositioning.language.getD (detect_language "m2"))
            sPositioning.framing.researchType sPositioning.tension } ∧
    (process_message oC sPositioning "m2" (mkReadyTag "positioning")
      "r2").1.tension = sPositioning.tension := by
  have h := claim_C2 oC sPositioning "m2" "r2"
    [("phase", .str "positioning"), ("ready", .bool true)] (by decide)
  exact h.2.1 (by rfl)

/-- Counterexample to claim C2 as stated: a reachable session sitting in
the positioning phase receives a ready signal whose phase field says
tension; the turn does not run position building (Purpose stays empty) but
runs mode classification and tension extraction, then still advances the
phase. -/
theorem claim_C2_counterexample :
    sPositioning.phase = "positioning" ∧
    (process_message oC2 sPositioning "m2" (mkReadyTag "tension") "r2").2 =
      .ok true ∧
    (process_message oC2 sPositioning "m2"
      (mkReadyTag "tension") "r2").1.framing.purpose = "" ∧
    (process_message oC2 sPositioning "m2"
      (mkReadyTag "tension") "r2").1.framing.researchType = "Exploratory" ∧
    (process_message oC2 sPositioning "m2"
      (mkReadyTag "tension") "r2").1.phase = "question_sharpening" := by
  refine ⟨by decide, by decide, by decide, by decide, by decide⟩

/-- Claim C3 (amended): a reply whose extract block fails to parse, or
parses to a dict without a truthy ready entry, is treated as not-ready — no
extraction effect, no phase change beyond the unconditional greeting
advance, no exception, and the conversation continues.  A dict signal with
ready true but no phase entry, however, still advances the phase one step
while running no extraction.  (The original claim said a signal missing
required keys never advances the phase; the counterexample shows the
advance.) -/
theorem claim_C3 (o : SkillOracle) (s : Session) (msg txt : String) :
    ((process_message o s msg .invalid txt).2 = .ok false ∧
     (process_message o s msg .invalid txt).1.phase_index = preIdx s ∧
     (process_message o s msg .invalid txt).1.framing = s.framing ∧
     (process_message o s msg .invalid txt).1.tension = s.tension ∧
     (process_message o s msg .invalid txt).1.rq_candidates =
       s.rq_candidates) ∧
    (∀ fields, readySignal (.parsed (.obj fields)) = false →
      (process_message o s msg (.parsed (.obj fields)) txt).2 = .ok false ∧
      (process_message o s msg (.parsed (.obj fields)) txt).1.phase_index =
        preIdx s ∧
      (process_message o s msg (.parsed (.obj fields)) txt).1.framing =
        s.framing ∧
      (process_message o s msg (.parsed (.obj fields)) txt).1.tension =
        s.tension ∧
      (process_message o s msg (.parsed (.obj fields)) txt).1.rq_candidates =
        s.rq_candidates) ∧
    (∀ fields, readySignal (.parsed (.obj fields)) = true →
      alookup fields "phase" = none →
      (process_message o s msg (.parsed (.obj fields)) txt).2 = .ok true ∧
      (process_message o s msg (.parsed (.obj fields)) txt).1.framing =
        s.framing ∧
      (process_message o s msg (.parsed (.obj fields)) txt).1.tension =
        s.tension ∧
      (process_message o s msg (.parsed (.obj fields)) txt).1.rq_candidates =
        s.rq_candidates ∧
      (process_message o s msg (.parsed (.obj fields)) txt).1.phase_index =
        (if preIdx s + 1 < PHASE_ORDER.length then preIdx s + 1
         else preIdx s)) := by
  refine ⟨⟨rfl, preTurn_phase_index s msg, preTurn_framing s msg,
    preTurn_tension s msg, preTurn_rq_candidates s msg⟩, ?_, ?_⟩
  · intro fields h
    rw [pm_obj, if_neg (by simp [h])]
    exact ⟨rfl, preTurn_phase_index s msg, preTurn_framing s msg,
      preTurn_tension s msg, preTurn_rq_candidates s msg⟩
  · intro fields h hp
    rw [pm_obj, if_pos h]
    unfold afterReady
    rw [run_extraction_none o (preTurn s msg) fields hp]
    refine ⟨rfl, ?_, ?_, ?_, ?_⟩
    · show (advancePhase _).framing = _
      rw [advancePhase_framing, preTurn_framing]
    · show (advancePhase _).tension = _
      rw [advancePhase_tension, preTurn_tension]
    · show (advancePhase _).rq_candidates = _
      rw [advancePhase_rq_candidates, preTurn_rq_candidates]
    · show (advancePhase _).phase_index = _
      rw [advancePhase_index, preTurn_phase_index]

/-- Witness for claim C3: a dict signal without a ready entry keeps a
reachable session unchanged, while a ready signal without a phase entry
runs no extraction but reports an extraction turn. -/
theorem claim_C3_witness :
    ((process_message oC sPositioning "m"
        (.parsed (.obj [("foo", .null)])) "r").2 = .ok false ∧
     (process_message oC sPositioning "m"
        (.parsed (.obj [("foo", .null)])) "r").1.phase_index =
        preIdx sPositioning) ∧
    ((process_message oC sPositioning "m"
        (.parsed (.obj [("ready", .bool true)])) "r").2 = .ok true ∧
     (process_message oC sPositioning "m"
        (.parsed (.obj [("ready", .bool true)])) "r").1.framing =
        sPositioning.framing) := by
  have h := claim_C3 oC sPositioning "m" "r"
  have h6 := h.2.1 [("foo", .null)] (by rfl)
  have h7 := h.2.2 [("ready", .bool true)] (by rfl) (by rfl)
  exact ⟨⟨h6.1, h6.2.1⟩, ⟨h7.1, h7.2.1⟩⟩

/-- Counterexample to claim C3 as stated: a reply whose extract block is
valid JSON with ready true but missing the required phase key advances a
reachable positioning-phase session to question_sharpening, although the
claim requires such a turn to be treated as not-ready with no phase
advance. -/
theorem claim_C3_counterexample :
    sPositioning.phase_index = 2 ∧
    (process_message oC sPositioning "m"
      (.parsed (.obj [("ready", .bool true)])) "r").1.phase_index = 3 ∧
    (process_message oC sPositioning "m"
      (.parsed (.obj [("ready", .bool true)])) "r").1.phase =
      "question_sharpening" ∧
    (process_message oC sPositioning "m"
      (.parsed (.obj [("ready", .bool true)])) "r").2 = .ok true := by
  refine ⟨by decide, by decide, by decide, by decide⟩

/-- The question branch of _run_extraction with an integer selected_index in
range: that question is selected. -/
theorem run_extraction_question_idx_in (o : SkillOracle) (s : Session)
    (fields : List (String × JValue)) (n : Int)
    (hp : alookup fields "phase" = some (.str "question"))
    (hsel : alookup fields "selected_index" = some (.num n))
    (hin : 0 ≤ n ∧ n < ((o.questionGenerator (s.language.getD "en")
      s.framing.purpose s.framing.researchType).length : Int)) :
    run_extraction o s fields =
      ({ s with
          rq_candidates := o.questionGenerator (s.language.getD "en")
            s.framing.purpose s.framing.researchType,
          framing := { s.framing with
            rq := ((o.questionGenerator (s.language.getD "en")
              s.framing.purpose s.framing.researchType)[n.toNat]?.getD
                default).question } }, none) := by
  unfold run_extraction
  dsimp only
  rw [hp, hsel]
  show (if isStr (some (JValue.str "question")) "tension" = true then _
    else _) = _
  rw [if_neg (by decide), if_neg (by decide), if_pos (by decide)]
  rw [Option.getD_some]
  dsimp only [jIndex]
  rw [if_pos hin]

/-- The question branch of _run_extraction with an integer selected_index
out of range and a non-empty list: falls back to the first question. -/
theorem run_extraction_question_idx_out (o : SkillOracle) (s : Session)
    (fields : List (String × JValue)) (n : Int)
    (hp : alookup fields "phase" = some (.str "question"))
    (hsel : alookup fields "selected_index" = some (.num n))
    (hout : ¬ (0 ≤ n ∧ n < ((o.questionGenerator (s.language.getD "en")
      s.framing.purpose s.framing.researchType).length : Int)))
    (hne : o.questionGenerator (s.language.getD "en") s.framing.purpose
      s.framing.researchType ≠ []) :
    run_extraction o s fields =
      ({ s with
          rq_candidates := o.questionGenerator (s.language.getD "en")
            s.framing.purpose s.framing.researchType,
          framing := { s.framing with
            rq := ((o.questionGenerator (s.language.getD "en")
              s.framing.purpose s.framing.researchType).headD
                default).question } }, none) := by
  unfold run_extraction
  dsimp only
  rw [hp, hsel]
  show (if isStr (some (JValue.str "question")) "tension" = true then _
    else _) = _
  rw [if_neg (by decide), if_neg (by decide), if_pos (by decide)]
  rw [Option.getD_some]
  dsimp only [jIndex]
  rw [if_neg hout, if_neg hne]

/-- The question branch of _run_extraction with an integer selected_index
and an empty generated list: only rq_candidates is written, no error. -/
theorem run_extraction_question_idx_empty (o : SkillOracle) (s : Session)
    (fields : List (String × JValue)) (n : Int)
    (hp : alookup fields "phase" = some (.str "question"))
    (hsel : alookup fields "selected_index" = some (.num n))
    (hq : o.questionGenerator (s.language.getD "en") s.framing.purpose
      s.framing.researchType = []) :
    run_extraction o s fields = ({ s with rq_candidates := [] }, none) := by
  unfold run_extraction
  dsimp only
  rw [hp, hsel, hq]
  show (if isStr (some (JValue.str "question")) "tension" = true then _
    else _) = _
  rw [if_neg (by decide), if_neg (by decide), if_pos (by decide)]
  rw [Option.getD_some]
  dsimp only [jIndex]
  rw [if_neg (by rintro ⟨h1, h2⟩; simp at h2; omega), if_pos rfl]

/-- Claim C6 (amended): in the conversation engine, question auto-selection
takes the signalled index when it is in range, falls back to the first
question when the index is out of range, and leaves the framing unchanged
without raising when the generated list is empty; run_notion_pipeline,
however, always selects the first question and raises an IndexError when
the generated list is empty.  (The original claim said an empty question
list is never an error at this layer; the counterexample shows the
IndexError.) -/
theorem claim_C6 (o : SkillOracle) (s : Session)
    (fields : List (String × JValue)) (n : Int)
    (onp : NotionOracle) (raw owner year : String)
    (hp : alookup fields "phase" = some (.str "question"))
    (hsel : alookup fields "selected_index" = some (.num n)) :
    ((0 ≤ n ∧ n < ((o.questionGenerator (s.language.getD "en")
        s.framing.purpose s.framing.researchType).length : Int)) →
      (run_extraction o s fields).2 = none ∧
      (run_extraction o s fields).1.framing.rq =
        ((o.questionGenerator (s.language.getD "en") s.framing.purpose
          s.framing.researchType)[n.toNat]?.getD default).question) ∧
    (¬ (0 ≤ n ∧ n < ((o.questionGenerator (s.language.getD "en")
        s.framing.purpose s.framing.researchType).length : Int)) →
      o.questionGenerator (s.language.getD "en") s.framing.purpose
        s.framing.researchType ≠ [] →
      (run_extraction o s fields).2 = none ∧
      (run_extraction o s fields).1.framing.rq =
        ((o.questionGenerator (s.language.getD "en") s.framing.purpose
          s.framing.researchType).headD default).question) ∧
    (o.questionGenerator (s.language.getD "en") s.framing.purpose
        s.framing.researchType = [] →
      (run_extraction o s fields).2 = none ∧
      (run_extraction o s fields).1.framing = s.framing) ∧
    (onp.questionGenerator
        (onp.positionBuilder (onp.modeClassifier raw)
          (onp.tensionExtractor raw)) (onp.modeClassifier raw) = [] →
      run_notion_pipeline onp raw owner year = .error .indexError) ∧
    (∀ q rest, onp.questionGenerator
        (onp.positionBuilder (onp.modeClassifier raw)
          (onp.tensionExtractor raw)) (onp.modeClassifier raw) = q :: rest →
      ∃ out, run_notion_pipeline onp raw owner year = .ok out ∧
        out.rq = q.question) := by
  refine ⟨?_, ?_, ?_, ?_, ?_⟩
  · intro hin
    rw [run_extraction_question_idx_in o s fields n hp hsel hin]
    exact ⟨rfl, rfl⟩
  · intro hout hne
    rw [run_extraction_question_idx_out o s fields n hp hsel hout hne]
    exact ⟨rfl, rfl⟩
  · intro hq
    rw [run_extraction_question_idx_empty o s fields n hp hsel hq]
    exact ⟨rfl, rfl⟩
  · intro hq
    unfold run_notion_pipeline
    dsimp only
    rw [hq]
  · intro q rest hq
    unfold run_notion_pipeline
    dsimp only
    rw [hq]
    exact ⟨_, rfl, rfl⟩

/-- A concrete notion-pipeline oracle whose question generator returns no
questions. -/
def nOracleEmpty : NotionOracle :=
  { modeClassifier := fun _ => "Critical",
    tensionExtractor := fun _ => ⟨"A", "B", "C"⟩,
    positionBuilder := fun _ _ => "P",
    questionGenerator := fun _ _ => [],
    methodInferrer := fun _ _ => "M",
    resultInferrer := fun _ _ _ => "R",
    contributionClaimer := fun _ _ _ => "K" }

/-- Witness for claim C6, the scenario of the specification: selection
index five against a three-element generated list resolves to the first
question, with no error. -/
theorem claim_C6_witness :
    (run_extraction oC sPositioning
      [("phase", .str "question"), ("selected_index", .num 5)]).1.framing.rq
      = "Q1" ∧
    (run_extraction oC sPositioning
      [("phase", .str "question"), ("selected_index", .num 5)]).2 =
      none := by
  have h := claim_C6 oC sPositioning
    [("phase", .str "question"), ("selected_index", .num 5)] 5
    nOracleEmpty "topic" "own" "2025" (by rfl) (by rfl)
  have heq := h.2.1 (by decide) (by decide)
  refine ⟨?_, heq.1⟩
  rw [heq.2]
  rfl

/-- Counterexample to claim C6 as stated: run_notion_pipeline on an empty
generated question list raises an IndexError instead of leaving the
selected question empty. -/
theorem claim_C6_counterexample :
    run_notion_pipeline nOracleEmpty "topic" "own" "2025" =
      .error .indexError := rfl

/-- Claim C8 (amended): a failing session write never aborts the
user-visible turn — _save_session returns normally and leaves the store as
it was — but the failure is silently swallowed: no log record is emitted on
any path.  (The original claim said the failure is logged as a degraded
condition; the counterexample shows the empty log.) -/
theorem claim_C8 (ok : Bool) (store : SessionStore) (s : Session) :
    (save_session ok store s).2 = [] ∧
    (save_session false store s).1 = store := by
  constructor
  · unfold save_session session_write
    cases ok <;> rfl
  · rfl

/-- Counterexample to claim C8 as stated: a failed write of a fresh session
leaves the store untouched and emits no log record at all, so the failure
is not logged as a degraded condition. -/
theorem claim_C8_counterexample :
    (save_session false [] (start_session "sid" "own" "2025")).1 = [] ∧
    (save_session false [] (start_session "sid" "own" "2025")).2 = [] :=
  ⟨rfl, rfl⟩

/-- pySlice is the identity on strings within the cap. -/
theorem pySlice_eq_self {s : String} {n : Nat} (h : s.length ≤ n) :
    pySlice s n = s := by
  unfold pySlice
  rw [List.take_of_length_le h]

/-- Claim C9: writing a ten-field framing record to the store and loading
it straight back through the notion-sync field mapping reproduces every
field after the store-imposed 2000-character cap on the title and rich_text
fields (the Research Type select is reproduced exactly); whenever every
field is within the cap, the round trip is byte-for-byte the identity. -/
theorem claim_C9 (f : Framing) :
    notion_sync_framing (write_to_notion_properties f) =
      truncate_framing f ∧
    (f.projectName.length ≤ 2000 → f.owner.length ≤ 2000 →
     f.background.length ≤ 2000 → f.purpose.length ≤ 2000 →
     f.rq.length ≤ 2000 → f.method.length ≤ 2000 →
     f.result.length ≤ 2000 → f.contribution.length ≤ 2000 →
     f.year.length ≤ 2000 →
     notion_sync_framing (write_to_notion_properties f) = f) := by
  constructor
  · rfl
  · intro h1 h2 h3 h4 h5 h6 h7 h8 h9
    show truncate_framing f = f
    unfold truncate_framing
    rw [pySlice_eq_self h1, pySlice_eq_self h2, pySlice_eq_self h3,
      pySlice_eq_self h4, pySlice_eq_self h5, pySlice_eq_self h6,
      pySlice_eq_self h7, pySlice_eq_self h8, pySlice_eq_self h9]

/-- Witness for claim C9: a concrete record within the cap round-trips
byte-for-byte. -/
theorem claim_C9_witness :
    notion_sync_framing (write_to_notion_properties
      { empty_framing "2025" with
          projectName := "urban farming", owner := "Ada",
          researchType := "Critical" }) =
      { empty_framing "2025" with
          projectName := "urban farming", owner := "Ada",
          researchType := "Critical" } := by
  have h := claim_C9 { empty_framing "2025" with
    projectName := "urban farming", owner := "Ada",
    researchType := "Critical" }
  exact h.2 (by decide) (by decide) (by decide) (by decide) (by decide)
    (by decide) (by decide) (by decide) (by decide)
